import Mathlib

/-!
Verification development for the teleport-lab viewers (src/main.js and
src/sculptures/main.js): a shallow embedding of the asset-loading pipeline,
the transform applier, the camera-fit routines, the render-loop scheduler
and the sculpture viewer, together with theorems about their behaviour.
-/

namespace TeleportLab

/-! ## Bounded concurrent runner (src/main.js, runWithConcurrency, lines 548-565)

The JS function keeps a shared `index`, spawns `safeConcurrency` runners, and
each runner repeatedly claims `index` (synchronously incrementing it) and then
awaits `worker(items[current])`.  We model the single-threaded event loop as a
small-step machine: each runner is `ready` (about to test the loop condition),
`awaiting i` (its worker call on item `i` is in flight), or `finished`.
Claiming an index and incrementing the shared counter is one synchronous step;
the worker's effect on shared state is applied when its await completes.
Runner identity is irrelevant, so the pool is a multiset of phases. -/

/-- Phase of a single runner of runWithConcurrency. -/
inductive RunnerPhase where
  | ready
  | awaiting (i : Nat)
  | finished
deriving DecidableEq

/-- Pool size: Math.max(1, Math.min(concurrency, items.length || 1)) from line 559. -/
def safeConcurrency (concurrency n : Nat) : Nat :=
  max 1 (min concurrency (if n = 0 then 1 else n))

/-- State of the runner pool over shared state σ.  `idx` is the shared claim
counter, `log` the sequence of item indices whose worker call has completed. -/
structure RunState (σ : Type) where
  idx : Nat
  runners : Multiset RunnerPhase
  shared : σ
  log : List Nat

/-- Indices contributed by one runner phase to the in-flight multiset. -/
def claimedOf : RunnerPhase → Multiset Nat
  | .awaiting i => {i}
  | _ => 0

/-- Multiset of item indices currently being worked on (in-flight loads). -/
def inflightMS (m : Multiset RunnerPhase) : Multiset Nat :=
  (m.map claimedOf).sum

/-- One step of the event loop for a pool processing `n` items, where the
worker call on item `i` changes the shared state by `effect i`. -/
inductive RunStep {σ : Type} (n : Nat) (effect : Nat → σ → σ) :
    RunState σ → RunState σ → Prop where
  | claim (idx : Nat) (rest : Multiset RunnerPhase) (sh : σ) (lg : List Nat)
      (hlt : idx < n) :
      RunStep n effect ⟨idx, rest + {RunnerPhase.ready}, sh, lg⟩
        ⟨idx + 1, rest + {RunnerPhase.awaiting idx}, sh, lg⟩
  | finish (idx : Nat) (rest : Multiset RunnerPhase) (sh : σ) (lg : List Nat)
      (i : Nat) :
      RunStep n effect ⟨idx, rest + {RunnerPhase.awaiting i}, sh, lg⟩
        ⟨idx, rest + {RunnerPhase.ready}, effect i sh, lg ++ [i]⟩
  | exit (idx : Nat) (rest : Multiset RunnerPhase) (sh : σ) (lg : List Nat)
      (hge : n ≤ idx) :
      RunStep n effect ⟨idx, rest + {RunnerPhase.ready}, sh, lg⟩
        ⟨idx, rest + {RunnerPhase.finished}, sh, lg⟩

/-- The state right after the for-loop on lines 560-563 spawned the runners. -/
def runInit {σ : Type} (c n : Nat) (init : σ) : RunState σ :=
  ⟨0, Multiset.replicate (safeConcurrency c n) RunnerPhase.ready, init, []⟩

/-- Reachability of a pool state during the execution of runWithConcurrency. -/
def Reach {σ : Type} (c n : Nat) (effect : Nat → σ → σ) (init : σ)
    (s : RunState σ) : Prop :=
  Relation.ReflTransGen (RunStep n effect) (runInit c n init) s

/-- Every runner's promise has resolved, i.e. Promise.all on line 564 resolves. -/
def AllFinished {σ : Type} (s : RunState σ) : Prop :=
  ∀ ph ∈ s.runners, ph = RunnerPhase.finished

/-- Inductive invariant of the runner pool. -/
structure RunInv {σ : Type} (c n : Nat) (effect : Nat → σ → σ) (init : σ)
    (s : RunState σ) : Prop where
  idx_le : s.idx ≤ n
  claims_perm : (↑s.log : Multiset Nat) + inflightMS s.runners = ↑(List.range s.idx)
  card_runners : Multiset.card s.runners = safeConcurrency c n
  finished_imp : RunnerPhase.finished ∈ s.runners → s.idx = n
  shared_eq : s.shared = s.log.foldl (fun a i => effect i a) init

lemma inflightMS_add (a b : Multiset RunnerPhase) :
    inflightMS (a + b) = inflightMS a + inflightMS b := by
  simp [inflightMS]

lemma inflightMS_singleton (ph : RunnerPhase) : inflightMS {ph} = claimedOf ph := by
  simp [inflightMS]

lemma runInv_init {σ : Type} (c n : Nat) (effect : Nat → σ → σ) (init : σ) :
    RunInv c n effect init (runInit c n init) := by
  refine ⟨Nat.zero_le n, ?_, ?_, ?_, rfl⟩
  · simp [runInit, inflightMS, Multiset.map_replicate, claimedOf]
  · simp [runInit]
  · intro h
    have := Multiset.eq_of_mem_replicate h
    simp at this

lemma runInv_step {σ : Type} {c n : Nat} {effect : Nat → σ → σ} {init : σ}
    {s t : RunState σ} (hstep : RunStep n effect s t)
    (h : RunInv c n effect init s) : RunInv c n effect init t := by
  obtain ⟨h1, h2, h3, h4, h5⟩ := h
  cases hstep with
  | claim idx rest sh lg hlt =>
      dsimp only at h1 h2 h3 h4 h5
      simp only [inflightMS_add, inflightMS_singleton, claimedOf, add_zero] at h2
      refine ⟨hlt, ?_, ?_, ?_, h5⟩
      · dsimp only
        simp only [inflightMS_add, inflightMS_singleton, claimedOf]
        rw [List.range_succ, ← Multiset.coe_add, Multiset.coe_singleton, ← add_assoc, h2]
      · simpa using h3
      · intro hmem
        rcases Multiset.mem_add.mp hmem with hr | hs
        · have : idx = n := h4 (Multiset.mem_add.mpr (Or.inl hr))
          omega
        · simp at hs
  | finish idx rest sh lg i =>
      dsimp only at h1 h2 h3 h4 h5
      simp only [inflightMS_add, inflightMS_singleton, claimedOf] at h2
      refine ⟨h1, ?_, ?_, ?_, ?_⟩
      · dsimp only
        simp only [inflightMS_add, inflightMS_singleton, claimedOf, add_zero]
        rw [← Multiset.coe_add, Multiset.coe_singleton, ← h2]
        abel
      · simpa using h3
      · intro hmem
        rcases Multiset.mem_add.mp hmem with hr | hs
        · exact h4 (Multiset.mem_add.mpr (Or.inl hr))
        · simp at hs
      · dsimp only
        simp only [List.foldl_append, List.foldl_cons, List.foldl_nil]
        rw [h5]
  | exit idx rest sh lg hge =>
      dsimp only at h1 h2 h3 h4 h5
      refine ⟨h1, ?_, ?_, fun _ => le_antisymm h1 hge, h5⟩
      · simpa only [inflightMS_add, inflightMS_singleton, claimedOf] using h2
      · simpa using h3

lemma runInv_of_reach {σ : Type} {c n : Nat} {effect : Nat → σ → σ} {init : σ}
    {s : RunState σ} (h : Reach c n effect init s) : RunInv c n effect init s := by
  induction h with
  | refl => exact runInv_init c n effect init
  | tail _ hbc ih => exact runInv_step hbc ih

lemma one_le_safeConcurrency (c n : Nat) : 1 ≤ safeConcurrency c n :=
  le_max_left 1 _

lemma inflightMS_eq_zero {m : Multiset RunnerPhase}
    (h : ∀ ph ∈ m, ph = RunnerPhase.finished) : inflightMS m = 0 := by
  induction m using Multiset.induction_on with
  | empty => simp [inflightMS]
  | cons a s ih =>
      have ha := h a (Multiset.mem_cons_self a s)
      subst ha
      simp only [inflightMS, Multiset.map_cons, Multiset.sum_cons] at *
      rw [ih fun ph hph => h ph (Multiset.mem_cons_of_mem hph)]
      simp [claimedOf]

lemma idx_eq_of_allFinished {σ : Type} {c n : Nat} {effect : Nat → σ → σ}
    {init : σ} {s : RunState σ} (inv : RunInv c n effect init s)
    (hfin : AllFinished s) : s.idx = n := by
  have hcard : 0 < Multiset.card s.runners := by
    rw [inv.card_runners]
    exact lt_of_lt_of_le Nat.zero_lt_one (one_le_safeConcurrency c n)
  obtain ⟨ph, hph⟩ := Multiset.card_pos_iff_exists_mem.mp hcard
  have := hfin ph hph
  subst this
  exact inv.finished_imp hph

/-- C1: runWithConcurrency invokes the worker exactly once on each item: when
all runners of a pool over `n` items have finished, the list of completed
worker calls is a permutation of the item indices `0..n-1` (so no index is
skipped or handled twice), the shared state is exactly the fold of the worker
effects over that list, and for an empty item list the run resolves with no
worker invocation at all (empty log, untouched shared state). -/
theorem c1_runWithConcurrency_exactly_once {σ : Type} (c n : Nat)
    (effect : Nat → σ → σ) (init : σ) (s : RunState σ)
    (hreach : Reach c n effect init s) (hfin : AllFinished s) :
    s.log.Perm (List.range n) ∧
    s.shared = s.log.foldl (fun a i => effect i a) init ∧
    (n = 0 → s.log = [] ∧ s.shared = init) := by
  have inv := runInv_of_reach hreach
  have hidx := idx_eq_of_allFinished inv hfin
  have hz : inflightMS s.runners = 0 := inflightMS_eq_zero hfin
  have hperm : (↑s.log : Multiset Nat) = ↑(List.range n) := by
    have hc := inv.claims_perm
    rw [hz, add_zero, hidx] at hc
    exact hc
  have hp : s.log.Perm (List.range n) := Multiset.coe_eq_coe.mp hperm
  refine ⟨hp, inv.shared_eq, ?_⟩
  intro hn
  subst hn
  have hnil : s.log = [] := List.perm_nil.mp (by simpa using hp)
  refine ⟨hnil, ?_⟩
  rw [inv.shared_eq, hnil]
  rfl

/-- Witness for C1: a complete concrete run over one item with pool size one
processes exactly the index list [0]. -/
theorem c1_runWithConcurrency_exactly_once_witness :
    ([0] : List Nat).Perm (List.range 1) := by
  have s1 : RunStep 1 (fun (_ a : Nat) => a + 1)
      (⟨0, 0 + {RunnerPhase.ready}, 0, []⟩ : RunState Nat)
      ⟨0 + 1, 0 + {RunnerPhase.awaiting 0}, 0, []⟩ :=
    RunStep.claim 0 0 0 [] Nat.zero_lt_one
  have s2 : RunStep 1 (fun (_ a : Nat) => a + 1)
      (⟨0 + 1, 0 + {RunnerPhase.awaiting 0}, 0, []⟩ : RunState Nat)
      ⟨0 + 1, 0 + {RunnerPhase.ready}, 1, [0]⟩ :=
    RunStep.finish (0 + 1) 0 0 [] 0
  have s3 : RunStep 1 (fun (_ a : Nat) => a + 1)
      (⟨0 + 1, 0 + {RunnerPhase.ready}, 1, [0]⟩ : RunState Nat)
      ⟨0 + 1, 0 + {RunnerPhase.finished}, 1, [0]⟩ :=
    RunStep.exit (0 + 1) 0 1 [0] le_rfl
  have e0 : runInit 1 1 (0 : Nat) = ⟨0, 0 + {RunnerPhase.ready}, 0, []⟩ := by
    simp [runInit, safeConcurrency]
  have hreach : Reach 1 1 (fun (_ a : Nat) => a + 1) 0
      ⟨0 + 1, 0 + {RunnerPhase.finished}, 1, [0]⟩ := by
    unfold Reach
    rw [e0]
    exact Relation.ReflTransGen.tail
      (Relation.ReflTransGen.tail (Relation.ReflTransGen.single s1) s2) s3
  have hfin : AllFinished
      (⟨0 + 1, 0 + {RunnerPhase.finished}, 1, [0]⟩ : RunState Nat) := by
    intro ph hph
    simp only [zero_add, Multiset.mem_singleton] at hph
    exact hph
  exact (c1_runWithConcurrency_exactly_once 1 1 (fun (_ a : Nat) => a + 1) 0 _
    hreach hfin).1

lemma card_inflightMS_le (m : Multiset RunnerPhase) :
    Multiset.card (inflightMS m) ≤ Multiset.card m := by
  induction m using Multiset.induction_on with
  | empty => simp [inflightMS]
  | cons a s ih =>
      simp only [inflightMS, Multiset.map_cons, Multiset.sum_cons,
        Multiset.card_add, Multiset.card_cons] at ih ⊢
      have hca : Multiset.card (claimedOf a) ≤ 1 := by
        cases a <;> simp [claimedOf]
      omega

/-- C8: while runWithConcurrency executes, the number of in-flight worker
invocations never exceeds the pool size, the pool size is exactly
max 1 (min concurrency n) — the minimum of the limit and the item count,
floored at 1 — and hence for any limit of at least 1 the number of in-flight
invocations never exceeds the limit. -/
theorem c8_runWithConcurrency_bounded {σ : Type} (c n : Nat)
    (effect : Nat → σ → σ) (init : σ) (s : RunState σ)
    (hreach : Reach c n effect init s) :
    Multiset.card (inflightMS s.runners) ≤ safeConcurrency c n ∧
    safeConcurrency c n = max 1 (min c n) ∧
    (1 ≤ c → Multiset.card (inflightMS s.runners) ≤ c) := by
  have inv := runInv_of_reach hreach
  have hle : Multiset.card (inflightMS s.runners) ≤ safeConcurrency c n := by
    calc Multiset.card (inflightMS s.runners)
        ≤ Multiset.card s.runners := card_inflightMS_le _
      _ = safeConcurrency c n := inv.card_runners
  have hformula : safeConcurrency c n = max 1 (min c n) := by
    unfold safeConcurrency
    split <;> omega
  refine ⟨hle, hformula, fun hc => ?_⟩
  refine le_trans hle ?_
  rw [hformula]
  exact max_le hc (le_trans (min_le_left c n) le_rfl)

/-- Witness for C8: the initial pool state for 3 items with limit 8 is
reachable and has at most 8 loads in flight. -/
theorem c8_runWithConcurrency_bounded_witness :
    Multiset.card (inflightMS (runInit 8 3 (0 : Nat)).runners) ≤ 8 :=
  (c8_runWithConcurrency_bounded 8 3 (fun _ a => a) 0 _
    Relation.ReflTransGen.refl).2.2 (by norm_num)

/-! ## Transform applier (src/main.js, lines 91-184)

JSON-derived inputs are modelled by what Number() makes of them: a field is
absent (`none`, i.e. the key is missing and Number(undefined) is NaN) or holds
a value that Number() maps to a finite number or not.  Rotation sources keep
the shape information getQuaternion dispatches on: a JS array, a JS object
with optional x/y/z/w keys, or a non-object primitive. -/

/-- Result of Number(value) on a JS value: a finite number or not finite. -/
inductive JNum where
  | num (v : ℝ)
  | nonfinite

/-- asNumber from src/main.js lines 91-94. -/
def asNumber : JNum → ℝ → ℝ
  | .num v, _ => v
  | .nonfinite, fb => fb

/-- asNumber applied to a possibly-absent object field (an absent key reads
as undefined, and Number(undefined) is NaN, hence the fallback). -/
def asNumberField (f : Option JNum) (fb : ℝ) : ℝ :=
  match f with
  | some j => asNumber j fb
  | none => fb

/-- A {x, y, z} source object with possibly-absent fields. -/
structure VecSrc where
  x : Option JNum
  y : Option JNum
  z : Option JNum

/-- A three-component vector (THREE.Vector3 values). -/
structure Vec3 where
  x : ℝ
  y : ℝ
  z : ℝ

/-- getVector3 from src/main.js lines 113-120 (a falsy source reads as {}). -/
def getVector3 (source : Option VecSrc) (fb : Vec3) : Vec3 :=
  let ref := source.getD ⟨none, none, none⟩
  ⟨asNumberField ref.x fb.x, asNumberField ref.y fb.y, asNumberField ref.z fb.z⟩

/-- A quaternion (THREE.Quaternion values). -/
structure Quat where
  x : ℝ
  y : ℝ
  z : ℝ
  w : ℝ

/-- Length of a quaternion, as computed by THREE.Quaternion.length(). -/
noncomputable def qLength (q : Quat) : ℝ :=
  Real.sqrt (q.x ^ 2 + q.y ^ 2 + q.z ^ 2 + q.w ^ 2)

/-- THREE.Quaternion.normalize(): a zero-length quaternion becomes the
identity, otherwise each component is divided by the length. -/
noncomputable def qNormalize (q : Quat) : Quat :=
  if qLength q = 0 then ⟨0, 0, 0, 1⟩
  else ⟨q.x / qLength q, q.y / qLength q, q.z / qLength q, q.w / qLength q⟩

/-- THREE.Quaternion.setFromEuler for a THREE.Euler with default order XYZ,
as called on src/main.js lines 149-155. -/
noncomputable def eulerQuat (ex ey ez : ℝ) : Quat :=
  let c1 := Real.cos (ex / 2)
  let c2 := Real.cos (ey / 2)
  let c3 := Real.cos (ez / 2)
  let s1 := Real.sin (ex / 2)
  let s2 := Real.sin (ey / 2)
  let s3 := Real.sin (ez / 2)
  ⟨s1 * c2 * c3 + c1 * s2 * s3,
   c1 * s2 * c3 - s1 * c2 * s3,
   c1 * c2 * s3 + s1 * s2 * c3,
   c1 * c2 * c3 - s1 * s2 * s3⟩

/-- Shape of the JS value held in transform.rotation: an array, an object with
possibly-absent x/y/z/w keys, or a non-object primitive. -/
inductive RotSource where
  | arr (elems : List JNum)
  | obj (x : Option JNum) (y : Option JNum) (z : Option JNum) (w : Option JNum)
  | prim

/-- getQuaternion from src/main.js lines 122-161.  A 4-element array and an
object carrying all of the x/y/z/w keys are read as quaternion components and
normalized; any other object — including an array of a different length,
whose x/y/z properties are undefined — goes through the Euler branch; null,
undefined and primitives yield the identity. -/
noncomputable def getQuaternion : Option RotSource → Quat
  | some (.arr es) =>
      if es.length = 4 then
        qNormalize ⟨asNumberField es[0]? 0, asNumberField es[1]? 0,
          asNumberField es[2]? 0, asNumberField es[3]? 1⟩
      else
        eulerQuat 0 0 0
  | some (.obj x y z w) =>
      if x.isSome ∧ y.isSome ∧ z.isSome ∧ w.isSome then
        qNormalize ⟨asNumberField x 0, asNumberField y 0,
          asNumberField z 0, asNumberField w 1⟩
      else
        eulerQuat (asNumberField x 0) (asNumberField y 0) (asNumberField z 0)
  | _ => ⟨0, 0, 0, 1⟩

/-- A transform record: position, rotation and scale may each be absent. -/
structure TransformRec where
  position : Option VecSrc
  rotation : Option RotSource
  scale : Option VecSrc

/-- Resulting pose of the target Object3D after applyTransform. -/
structure Pose where
  position : Vec3
  quaternion : Quat
  scale : Vec3

/-- VIEWER_CONFIG.mirrorXAxisOnImport from src/main.js line 17. -/
def VIEWER_CONFIG_mirrorXAxisOnImport : Bool := true

/-- applyTransform from src/main.js lines 163-184, as the pose it writes onto
the target object (a falsy transform reads as {}). -/
noncomputable def applyTransform (mirrorXAxisOnImport : Bool)
    (transform : Option TransformRec) : Pose :=
  let t := transform.getD ⟨none, none, none⟩
  let p := getVector3 t.position ⟨0, 0, 0⟩
  let s := getVector3 t.scale ⟨1, 1, 1⟩
  let q := getQuaternion t.rotation
  if mirrorXAxisOnImport then
    { position := ⟨-p.x, p.y, p.z⟩
      quaternion := qNormalize ⟨q.x, -q.y, -q.z, q.w⟩
      scale := s }
  else
    { position := p, quaternion := q, scale := s }

/-- Position read by applyTransform before any mirroring. -/
def transformPos (t : Option TransformRec) : Vec3 :=
  getVector3 (t.getD ⟨none, none, none⟩).position ⟨0, 0, 0⟩

/-- Scale read by applyTransform. -/
def transformScale (t : Option TransformRec) : Vec3 :=
  getVector3 (t.getD ⟨none, none, none⟩).scale ⟨1, 1, 1⟩

/-- Quaternion read by applyTransform before any mirroring. -/
noncomputable def transformQuat (t : Option TransformRec) : Quat :=
  getQuaternion (t.getD ⟨none, none, none⟩).rotation

lemma qNormalize_of_length_one {q : Quat} (h : qLength q = 1) :
    qNormalize q = q := by
  unfold qNormalize
  rw [h]
  simp only [one_ne_zero, if_false, div_one]

lemma qLength_mirror (q : Quat) :
    qLength ⟨q.x, -q.y, -q.z, q.w⟩ = qLength q := by
  unfold qLength
  norm_num

lemma qLength_identity : qLength ⟨0, 0, 0, 1⟩ = 1 := by
  unfold qLength
  norm_num

/-- C4: with mirrorXAxisOnImport enabled (as VIEWER_CONFIG sets it),
applyTransform negates exactly the x component of the position, keeps the
scale unchanged, sets the quaternion to the renormalization of the source
quaternion with exactly its y and z components negated, and — since the
quaternions produced by getQuaternion are unit quaternions, on which
renormalization is the identity — the final rotation is componentwise
(x, -y, -z, w) whenever the source quaternion has length one. -/
theorem c4_applyTransform_mirror (t : Option TransformRec)
    (hq : qLength (transformQuat t) = 1) :
    VIEWER_CONFIG_mirrorXAxisOnImport = true ∧
    (applyTransform true t).position =
      ⟨-(transformPos t).x, (transformPos t).y, (transformPos t).z⟩ ∧
    (applyTransform true t).scale = transformScale t ∧
    (applyTransform true t).quaternion =
      qNormalize ⟨(transformQuat t).x, -(transformQuat t).y,
        -(transformQuat t).z, (transformQuat t).w⟩ ∧
    (applyTransform true t).quaternion =
      ⟨(transformQuat t).x, -(transformQuat t).y,
        -(transformQuat t).z, (transformQuat t).w⟩ := by
  refine ⟨rfl, rfl, rfl, rfl, ?_⟩
  show qNormalize ⟨(transformQuat t).x, -(transformQuat t).y,
      -(transformQuat t).z, (transformQuat t).w⟩ = _
  rw [qNormalize_of_length_one]
  rw [qLength_mirror, hq]

/-- Witness for C4: an absent transform yields the identity quaternion, of
length one, and its mirrored rotation is (0, -0, -0, 1). -/
theorem c4_applyTransform_mirror_witness :
    (applyTransform true none).quaternion = ⟨0, -0, -0, 1⟩ := by
  have hq : qLength (transformQuat none) = 1 := by
    show qLength ⟨0, 0, 0, 1⟩ = 1
    exact qLength_identity
  exact (c4_applyTransform_mirror none hq).2.2.2.2

/-- C5: applyTransform defaults absent fields to identity — with a missing or
null transform (or missing subfields) the written pose is position (0,0,0),
the identity quaternion and scale (1,1,1), under either mirror setting — and
getQuaternion detects the rotation format by shape: a 4-element array or an
object with all of the x, y, z and w keys is read (and normalized) as
quaternion components, while any other object — an object missing one of the
keys, or an array of another length, whose x/y/z properties are undefined —
is read as Euler angles; Euler angles (0,0,0) give the identity quaternion. -/
theorem c5_applyTransform_defaults :
    (∀ b : Bool, applyTransform b none =
      ⟨⟨0, 0, 0⟩, ⟨0, 0, 0, 1⟩, ⟨1, 1, 1⟩⟩) ∧
    (∀ b : Bool, applyTransform b (some ⟨none, none, none⟩) =
      ⟨⟨0, 0, 0⟩, ⟨0, 0, 0, 1⟩, ⟨1, 1, 1⟩⟩) ∧
    (∀ e0 e1 e2 e3 : JNum,
      getQuaternion (some (.arr [e0, e1, e2, e3])) =
        qNormalize ⟨asNumber e0 0, asNumber e1 0, asNumber e2 0, asNumber e3 1⟩) ∧
    (∀ x y z w : JNum,
      getQuaternion (some (.obj (some x) (some y) (some z) (some w))) =
        qNormalize ⟨asNumber x 0, asNumber y 0, asNumber z 0, asNumber w 1⟩) ∧
    (∀ x y z w : Option JNum,
      ¬(x.isSome ∧ y.isSome ∧ z.isSome ∧ w.isSome) →
      getQuaternion (some (.obj x y z w)) =
        eulerQuat (asNumberField x 0) (asNumberField y 0) (asNumberField z 0)) ∧
    (∀ es : List JNum, es.length ≠ 4 →
      getQuaternion (some (.arr es)) = eulerQuat 0 0 0) ∧
    eulerQuat 0 0 0 = ⟨0, 0, 0, 1⟩ := by
  have heuler : eulerQuat 0 0 0 = ⟨0, 0, 0, 1⟩ := by
    unfold eulerQuat
    norm_num
  have hmirrorid : qNormalize ⟨0, -0, -0, 1⟩ = ⟨0, 0, 0, 1⟩ := by
    rw [show (⟨0, -0, -0, 1⟩ : Quat) = ⟨0, 0, 0, 1⟩ by norm_num]
    exact qNormalize_of_length_one qLength_identity
  refine ⟨?_, ?_, ?_, ?_, ?_, ?_, heuler⟩
  · intro b
    cases b
    · rfl
    · show Pose.mk ⟨-0, 0, 0⟩ (qNormalize ⟨0, -0, -0, 1⟩) ⟨1, 1, 1⟩ = _
      rw [hmirrorid]
      norm_num
  · intro b
    cases b
    · rfl
    · show Pose.mk ⟨-0, 0, 0⟩ (qNormalize ⟨0, -0, -0, 1⟩) ⟨1, 1, 1⟩ = _
      rw [hmirrorid]
      norm_num
  · intro e0 e1 e2 e3
    rfl
  · intro x y z w
    rfl
  · intro x y z w h
    simp only [getQuaternion]
    rw [if_neg h]
  · intro es h
    simp only [getQuaternion]
    rw [if_neg h]

/-- Witness for C5: an object rotation source with no x/y/z/w keys goes
through the Euler branch and yields the identity quaternion. -/
theorem c5_applyTransform_defaults_witness :
    getQuaternion (some (RotSource.obj none none none none)) = ⟨0, 0, 0, 1⟩ := by
  have h := c5_applyTransform_defaults
  rw [h.2.2.2.2.1 none none none none (by simp)]
  show eulerQuat 0 0 0 = _
  exact h.2.2.2.2.2.2

/-! ## Camera fitting

Two routines exist: fitCameraToObject in src/main.js (lines 452-482), which
clamps the camera distance to [10, 280], and fitCameraToObject in
src/sculptures/main.js (lines 237-258), which derives the distance from the
same formula but applies no clamp.  The bounding box of the placed content is
summarized by its size and center vectors (THREE.Box3.getSize/getCenter). -/

/-- clamp from src/main.js lines 96-98. -/
def clamp (value minv maxv : ℝ) : ℝ :=
  min maxv (max minv value)

/-- Outputs of a camera-fit routine. -/
structure CameraFit where
  cameraZ : ℝ
  position : Vec3
  near : ℝ
  far : ℝ
  fogDensity : Option ℝ

/-- fitCameraToObject from src/main.js lines 452-482 (the non-early-return
path), given the bounding-box size and center of the object and the camera
field of view in degrees.  The offset argument goes through asNumber with
fallback 1.3. -/
noncomputable def fitCameraToObject (fovDeg : ℝ) (size center : Vec3)
    (offset : JNum) : CameraFit :=
  let maxDim := max size.x (max size.y size.z)
  let safeMaxDim := max maxDim 1
  let fov := fovDeg * (Real.pi / 180)
  let cameraZ0 := |safeMaxDim / 2 / Real.tan (fov / 2)| * asNumber offset 1.3
  let cameraZ := clamp cameraZ0 10 280
  { cameraZ := cameraZ
    position := ⟨center.x, center.y + safeMaxDim * 0.08, center.z + cameraZ⟩
    near := max (min (safeMaxDim / 1000) 0.2) 0.01
    far := max (safeMaxDim * 20) (max (cameraZ * 8) 1200)
    fogDensity := some (clamp (0.45 / max cameraZ 1) 0.00018 0.0012) }

/-- fitCameraToObject from src/sculptures/main.js lines 237-258: the same
distance derivation from the largest box dimension and the field of view,
but with no clamp applied. -/
noncomputable def fitCameraToObjectSculpt (fovDeg : ℝ) (size center : Vec3)
    (offset : ℝ) : CameraFit :=
  let maxDim := max size.x (max size.y size.z)
  let fov := fovDeg * (Real.pi / 180)
  let cameraZ := |maxDim / 2 / Real.tan (fov / 2)| * offset
  { cameraZ := cameraZ
    position := ⟨center.x, center.y, center.z + cameraZ⟩
    near := maxDim / 100
    far := maxDim * 100
    fogDensity := none }

/-- Counterexample for C2: the sculpture viewer's fitCameraToObject does not
keep the camera distance within the clamped range — at a 90 degree field of
view, a box of largest dimension 2000 and the viewer's own offset 1.35 it
produces a camera distance of 1350, above the inventory viewer's clamp
ceiling of 280. -/
theorem c2_counterexample :
    (fitCameraToObjectSculpt 90 ⟨2000, 0, 0⟩ ⟨0, 0, 0⟩ 1.35).cameraZ = 1350 ∧
    ¬((fitCameraToObjectSculpt 90 ⟨2000, 0, 0⟩ ⟨0, 0, 0⟩ 1.35).cameraZ ≤ 280) := by
  have htan : Real.tan (90 * (Real.pi / 180) / 2) = 1 := by
    rw [show (90 : ℝ) * (Real.pi / 180) / 2 = Real.pi / 4 by ring]
    exact Real.tan_pi_div_four
  have hz : (fitCameraToObjectSculpt 90 ⟨2000, 0, 0⟩ ⟨0, 0, 0⟩ 1.35).cameraZ = 1350 := by
    show |max 2000 (max 0 0) / 2 / Real.tan (90 * (Real.pi / 180) / 2)| * 1.35 = 1350
    rw [htan]
    norm_num
  refine ⟨hz, ?_⟩
  rw [hz]
  norm_num

/-- C2 (amended): the inventory viewer's fitCameraToObject derives the camera
distance from the largest bounding-box dimension and the field of view and
clamps it into [10, 280] — for every input the resulting distance lies in
that range — while the sculpture viewer's fitCameraToObject derives the
distance from the same largest-dimension / field-of-view formula but applies
no clamp. -/
theorem c2_camera_distance_clamped (fovDeg : ℝ) (size center : Vec3)
    (offset : JNum) (offsetS : ℝ) :
    10 ≤ (fitCameraToObject fovDeg size center offset).cameraZ ∧
    (fitCameraToObject fovDeg size center offset).cameraZ ≤ 280 ∧
    (fitCameraToObject fovDeg size center offset).cameraZ =
      clamp (|max (max size.x (max size.y size.z)) 1 / 2 /
        Real.tan (fovDeg * (Real.pi / 180) / 2)| * asNumber offset 1.3) 10 280 ∧
    (fitCameraToObjectSculpt fovDeg size center offsetS).cameraZ =
      |max size.x (max size.y size.z) / 2 /
        Real.tan (fovDeg * (Real.pi / 180) / 2)| * offsetS := by
  refine ⟨?_, ?_, rfl, rfl⟩
  · show 10 ≤ clamp _ 10 280
    unfold clamp
    rw [le_min_iff]
    constructor
    · norm_num
    · exact le_max_left 10 _
  · show clamp _ 10 280 ≤ 280
    exact min_le_left 280 _

/-! ## Render-loop scheduler (src/main.js, lines 492-542)

State: the hasAnimatedModels flag, the renderLoopActive flag (tracking
whether renderer.setAnimationLoop(renderFrame) is installed), the
frameRequested dirty flag, and the number of animation mixers.  renderFrame's
dependence on the canvas is summarized by whether a resize was needed. -/

/-- Render-loop state of the inventory viewer. -/
structure RenderState where
  hasAnimatedModels : Bool
  renderLoopActive : Bool
  frameRequested : Bool
  mixers : Nat
deriving DecidableEq

/-- ensureRenderLoopState from src/main.js lines 497-512. -/
def ensureRenderLoopState (s : RenderState) : RenderState :=
  let shouldRun := s.hasAnimatedModels || s.frameRequested
  if shouldRun && !s.renderLoopActive then
    { s with renderLoopActive := true }
  else if !shouldRun && s.renderLoopActive then
    { s with renderLoopActive := false }
  else s

/-- requestRender from src/main.js lines 492-495. -/
def requestRender (s : RenderState) : RenderState :=
  ensureRenderLoopState { s with frameRequested := true }

/-- registerModelAnimations from src/main.js lines 385-398, abstracted over
the number of clips (a missing or empty clip list returns early). -/
def registerModelAnimations (clipCount : Nat) (s : RenderState) : RenderState :=
  if clipCount = 0 then s
  else
    let s1 := { s with mixers := s.mixers + 1 }
    if !s1.hasAnimatedModels then
      ensureRenderLoopState { s1 with hasAnimatedModels := true }
    else s1

/-- renderFrame from src/main.js lines 514-542, abstracted over whether the
canvas needed a resize. -/
def renderFrame (needResize : Bool) (s : RenderState) : RenderState :=
  let s1 := if needResize then { s with frameRequested := true } else s
  let s2 := if s1.hasAnimatedModels then { s1 with frameRequested := true } else s1
  if !s2.frameRequested then
    if !s2.hasAnimatedModels then ensureRenderLoopState s2 else s2
  else
    let s3 := { s2 with frameRequested := false }
    if !s3.hasAnimatedModels then ensureRenderLoopState s3 else s3

/-- The render loop runs exactly when repainting is needed. -/
def renderLoopInv (s : RenderState) : Prop :=
  s.renderLoopActive = (s.hasAnimatedModels || s.frameRequested)

/-- C6: if the render loop is active exactly when needed, then it stays so
after requestRender, registerModelAnimations and renderFrame; moreover the
per-frame callback always leaves the frame-requested flag cleared after it
runs, and with animated models present the loop keeps running. -/
theorem c6_render_loop_active_iff_needed (s : RenderState) (clipCount : Nat)
    (needResize : Bool) (h : renderLoopInv s) :
    renderLoopInv (requestRender s) ∧
    renderLoopInv (registerModelAnimations clipCount s) ∧
    renderLoopInv (renderFrame needResize s) ∧
    (renderFrame needResize s).frameRequested = false ∧
    (s.hasAnimatedModels = true →
      (renderFrame needResize s).renderLoopActive = true) := by
  obtain ⟨anim, active, req, mix⟩ := s
  rcases clipCount with _ | k <;> cases anim <;> cases active <;> cases req <;>
    cases needResize <;>
    simp_all [renderLoopInv, requestRender, registerModelAnimations,
      renderFrame, ensureRenderLoopState]

/-- Witness for C6: from the quiescent state the per-frame callback leaves
the frame-requested flag cleared. -/
theorem c6_render_loop_active_iff_needed_witness :
    (renderFrame false ⟨false, false, false, 0⟩).frameRequested = false :=
  (c6_render_loop_active_iff_needed ⟨false, false, false, 0⟩ 0 false
    (show false = (false || false) by rfl)).2.2.2.1

/-! ## Asset loading pipeline (src/main.js, lines 287-431 and 692-757)

The loaders' promise caches map a filename to the eventual result of the
promise created on first request; that result is fixed by the environment
(the network / decoder outcome for that file).  The underlying THREE loader
is invoked only when a cache miss creates the promise; invocations are
logged so that retries are observable.  Scene placement is recorded as the
list of nodes added to the `world` group. -/

/-- An asset record of the inventory manifest (a non-null entry). -/
structure AssetRec where
  assetType : Option String
  mapped_file : Option String
  transform : Option TransformRec

/-- JS string truthiness for file names: if (!fileName) rejects both a
missing field and an empty string. -/
def truthyString : Option String → Option String
  | some s => if s = "" then none else some s
  | none => none

/-- Result object delivered by GLTFLoader.load on success. -/
structure GltfRes where
  scene : Option String
  scenes : List String
  animations : Option Nat

/-- Entry cached by loadModelTemplate. -/
structure ModelEntry where
  template : String
  unitScale : ℚ
  animations : Nat
deriving DecidableEq

/-- Environment fixing each file's load outcome: the texture result or error
per image filename, the GLTF result or error per model filename, and the
unit-scale each model's bounding box produces. -/
structure LoadEnv where
  texResult : String → Except String String
  gltfResult : String → Except String GltfRes
  unitScaleOf : String → ℚ

/-- A node added to the `world` group. -/
inductive WorldEntry where
  | imageLayer (asset : AssetRec)
  | modelHolder (asset : AssetRec) (entry : ModelEntry)
  | fallbackPlane (asset : Option AssetRec) (error : String)

/-- The totals record from src/main.js lines 703-708. -/
structure Totals where
  total : Nat
  ok : Nat
  fallback : Nat
  loaded : Nat
deriving DecidableEq

/-- Mutable state of the loading pipeline: status counters, the world group,
the two promise caches, and the log of underlying loader invocations. -/
structure PipeState where
  totals : Totals
  world : List WorldEntry
  texCache : List (String × Except String String)
  modelCache : List (String × Except String ModelEntry)
  texLoaderCalls : List String
  modelLoaderCalls : List String

/-- First value associated to a key (Map.get / Map.has). -/
def assocFind {α β : Type} [DecidableEq α] (k : α) : List (α × β) → Option β
  | [] => none
  | (a, b) :: rest => if a = k then some b else assocFind k rest

/-- loadTextureByFile from src/main.js lines 300-322: return the cached
promise if present, otherwise create the promise (whose eventual result the
environment fixes), cache it, and record the loader invocation. -/
def loadTextureByFile (env : LoadEnv) (fileName : String) (st : PipeState) :
    Except String String × PipeState :=
  match assocFind fileName st.texCache with
  | some p => (p, st)
  | none =>
      let p := env.texResult fileName
      (p, { st with texCache := st.texCache ++ [(fileName, p)],
                    texLoaderCalls := st.texLoaderCalls ++ [fileName] })

/-- Result of the promise body of loadModelTemplate (lines 327-343): a loader
error rejects; a GLTF with no scene (gltf.scene || gltf.scenes[0]) rejects
with "Empty GLTF scene"; otherwise the template entry resolves. -/
def modelPromiseResult (env : LoadEnv) (r : Except String GltfRes) :
    Except String ModelEntry :=
  match r with
  | .error e => .error e
  | .ok gltf =>
      match gltf.scene.orElse (fun _ => gltf.scenes.head?) with
      | none => .error "Empty GLTF scene"
      | some model => .ok ⟨model, env.unitScaleOf model, gltf.animations.getD 0⟩

/-- loadModelTemplate from src/main.js lines 324-347. -/
def loadModelTemplate (env : LoadEnv) (fileName : String) (st : PipeState) :
    Except String ModelEntry × PipeState :=
  match assocFind fileName st.modelCache with
  | some p => (p, st)
  | none =>
      let p := modelPromiseResult env (env.gltfResult fileName)
      (p, { st with modelCache := st.modelCache ++ [(fileName, p)],
                    modelLoaderCalls := st.modelLoaderCalls ++ [fileName] })

/-- addImageAsset from src/main.js lines 359-368. -/
def addImageAsset (env : LoadEnv) (asset : AssetRec) (st : PipeState) :
    Except String Unit × PipeState :=
  match truthyString asset.mapped_file with
  | none => (.error "missing mapped_file", st)
  | some fileName =>
      match loadTextureByFile env fileName st with
      | (.error e, st1) => (.error e, st1)
      | (.ok _, st1) =>
          (.ok (), { st1 with world := st1.world ++ [.imageLayer asset] })

/-- addModelAsset from src/main.js lines 400-417. -/
def addModelAsset (env : LoadEnv) (asset : AssetRec) (st : PipeState) :
    Except String Unit × PipeState :=
  match truthyString asset.mapped_file with
  | none => (.error "missing mapped_file", st)
  | some fileName =>
      match loadModelTemplate env fileName st with
      | (.error e, st1) => (.error e, st1)
      | (.ok entry, st1) =>
          (.ok (), { st1 with world := st1.world ++ [.modelHolder asset entry] })

/-- Display name in the unsupported-type message: asset.assetType || "unknown". -/
def assetTypeName : Option String → String
  | some s => if s = "" then "unknown" else s
  | none => "unknown"

/-- addAsset from src/main.js lines 419-431. -/
def addAsset (env : LoadEnv) (asset : AssetRec) (st : PipeState) :
    Except String Unit × PipeState :=
  if asset.assetType = some "model" then
    addModelAsset env asset st
  else if asset.assetType = some "image" then
    addImageAsset env asset st
  else
    (.error ("unsupported type: " ++ assetTypeName asset.assetType), st)

/-- JS || fallback to "load_error" for a possibly-empty (falsy) string. -/
def orLoadError (s : String) : String :=
  if s = "" then "load_error" else s

/-- addFallbackPlane from src/main.js lines 287-298: adds a placeholder plane
whose userData records the asset and the error reason (reason || "load_error"). -/
def addFallbackPlane (asset : Option AssetRec) (reason : String)
    (st : PipeState) : PipeState :=
  { st with world := st.world ++ [.fallbackPlane asset (orLoadError reason)] }

/-- handleAsset from src/main.js lines 718-739 (status-text and yield side
effects omitted): a successful addAsset bumps ok, a failure bumps fallback
and adds a fallback plane recording err.message (or "load_error" if falsy),
and the finally block bumps loaded either way. -/
def handleAsset (env : LoadEnv) (asset : AssetRec) (st : PipeState) : PipeState :=
  match addAsset env asset st with
  | (.ok _, st1) =>
      { st1 with totals := { st1.totals with
          ok := st1.totals.ok + 1, loaded := st1.totals.loaded + 1 } }
  | (.error e, st1) =>
      let st2 := addFallbackPlane (some asset) (orLoadError e)
        { st1 with totals := { st1.totals with fallback := st1.totals.fallback + 1 } }
      { st2 with totals := { st2.totals with loaded := st2.totals.loaded + 1 } }

/-- One iteration of the otherAssets loop in main (lines 741-745). -/
def otherAssetStep (st : PipeState) (asset : Option AssetRec) : PipeState :=
  let st1 := { st with totals := { st.totals with
      fallback := st.totals.fallback + 1, loaded := st.totals.loaded + 1 } }
  addFallbackPlane asset "unsupported type" st1

/-- Picks the model assets: asset && asset.assetType === "model" (line 710). -/
def pickModel : Option AssetRec → Option AssetRec
  | some r => if r.assetType = some "model" then some r else none
  | none => none

/-- Picks the image assets: asset && asset.assetType === "image" (line 711). -/
def pickImage : Option AssetRec → Option AssetRec
  | some r => if r.assetType = some "image" then some r else none
  | none => none

/-- Membership test of the otherAssets filter (lines 712-714):
!asset || (type !== "model" && type !== "image"). -/
def isOtherAsset : Option AssetRec → Bool
  | none => true
  | some r => decide (r.assetType ≠ some "model") && decide (r.assetType ≠ some "image")

/-- MODEL_CONCURRENCY from src/main.js line 8. -/
def MODEL_CONCURRENCY : Nat := 1

/-- IMAGE_CONCURRENCY from src/main.js line 9. -/
def IMAGE_CONCURRENCY : Nat := 8

/-- Model batch handed to the first runWithConcurrency call. -/
def modelBatch (assets : List (Option AssetRec)) : List AssetRec :=
  assets.filterMap pickModel

/-- Image batch handed to the second runWithConcurrency call. -/
def imageBatch (assets : List (Option AssetRec)) : List AssetRec :=
  assets.filterMap pickImage

/-- The totals record as initialized on lines 703-708. -/
def initTotals (assets : List (Option AssetRec)) : Totals :=
  ⟨assets.length, 0, 0, 0⟩

/-- Pipeline state at the start of main's loading phase. -/
def pipeInit (assets : List (Option AssetRec)) : PipeState :=
  ⟨initTotals assets, [], [], [], [], []⟩

/-- Pipeline state after the synchronous otherAssets loop (lines 741-745). -/
def afterOthers (assets : List (Option AssetRec)) : PipeState :=
  (assets.filter isOtherAsset).foldl otherAssetStep (pipeInit assets)

/-- Worker effect of handleAsset on item index i of a batch, as plugged into
the runner machine. -/
def batchEffect (env : LoadEnv) (items : List AssetRec) (i : Nat)
    (st : PipeState) : PipeState :=
  handleAsset env (items.getD i ⟨none, none, none⟩) st

/-- The counter bookkeeping invariant of the totals record. -/
def TotalsInv (t : Totals) : Prop :=
  t.ok + t.fallback = t.loaded

lemma loadTextureByFile_totals (env : LoadEnv) (f : String) (st : PipeState) :
    (loadTextureByFile env f st).2.totals = st.totals := by
  unfold loadTextureByFile
  cases assocFind f st.texCache <;> rfl

lemma loadModelTemplate_totals (env : LoadEnv) (f : String) (st : PipeState) :
    (loadModelTemplate env f st).2.totals = st.totals := by
  unfold loadModelTemplate
  cases assocFind f st.modelCache <;> rfl

lemma addImageAsset_totals (env : LoadEnv) (asset : AssetRec) (st : PipeState) :
    (addImageAsset env asset st).2.totals = st.totals := by
  unfold addImageAsset
  cases htr : truthyString asset.mapped_file with
  | none => rfl
  | some f =>
      have hl := loadTextureByFile_totals env f st
      rcases hload : loadTextureByFile env f st with ⟨res, st1⟩
      rw [hload] at hl
      dsimp only
      rw [hload]
      cases res
      · exact hl
      · exact hl

lemma addModelAsset_totals (env : LoadEnv) (asset : AssetRec) (st : PipeState) :
    (addModelAsset env asset st).2.totals = st.totals := by
  unfold addModelAsset
  cases htr : truthyString asset.mapped_file with
  | none => rfl
  | some f =>
      have hl := loadModelTemplate_totals env f st
      rcases hload : loadModelTemplate env f st with ⟨res, st1⟩
      rw [hload] at hl
      dsimp only
      rw [hload]
      cases res
      · exact hl
      · exact hl

lemma addAsset_totals (env : LoadEnv) (asset : AssetRec) (st : PipeState) :
    (addAsset env asset st).2.totals = st.totals := by
  unfold addAsset
  split
  · exact addModelAsset_totals env asset st
  · split
    · exact addImageAsset_totals env asset st
    · rfl

lemma handleAsset_totals (env : LoadEnv) (asset : AssetRec) (st : PipeState) :
    (handleAsset env asset st).totals.loaded = st.totals.loaded + 1 ∧
    (handleAsset env asset st).totals.ok + (handleAsset env asset st).totals.fallback
      = st.totals.ok + st.totals.fallback + 1 ∧
    (handleAsset env asset st).totals.total = st.totals.total := by
  unfold handleAsset
  rcases hcall : addAsset env asset st with ⟨res, st1⟩
  have htot : st1.totals = st.totals := by
    have := addAsset_totals env asset st
    rw [hcall] at this
    exact this
  cases res
  · dsimp only [addFallbackPlane]
    rw [htot]
    refine ⟨rfl, by omega, rfl⟩
  · dsimp only
    rw [htot]
    refine ⟨rfl, by omega, rfl⟩

lemma handleAsset_totalsInv (env : LoadEnv) (asset : AssetRec) {st : PipeState}
    (h : TotalsInv st.totals) : TotalsInv (handleAsset env asset st).totals := by
  have := handleAsset_totals env asset st
  unfold TotalsInv at *
  omega

lemma foldl_handleAsset_totals (env : LoadEnv) (items : List AssetRec)
    (lg : List Nat) (st : PipeState) :
    ((lg.foldl (fun a i => batchEffect env items i a) st).totals.loaded
      = st.totals.loaded + lg.length) ∧
    (TotalsInv st.totals →
      TotalsInv (lg.foldl (fun a i => batchEffect env items i a) st).totals) ∧
    ((lg.foldl (fun a i => batchEffect env items i a) st).totals.total
      = st.totals.total) := by
  induction lg generalizing st with
  | nil => exact ⟨rfl, fun h => h, rfl⟩
  | cons i rest ih =>
      simp only [List.foldl_cons, List.length_cons]
      have hstep := handleAsset_totals env (items.getD i ⟨none, none, none⟩) st
      obtain ⟨ih1, ih2, ih3⟩ := ih (batchEffect env items i st)
      refine ⟨?_, ?_, ?_⟩
      · rw [ih1]
        show (batchEffect env items i st).totals.loaded + rest.length = _
        unfold batchEffect
        omega
      · intro h
        exact ih2 (handleAsset_totalsInv env _ h)
      · rw [ih3]
        exact hstep.2.2

lemma orLoadError_orLoadError (e : String) :
    orLoadError (orLoadError e) = orLoadError e := by
  unfold orLoadError
  by_cases h : e = "" <;> simp [h]

lemma assocFind_append {α β : Type} [DecidableEq α] (k : α)
    (l1 l2 : List (α × β)) :
    assocFind k (l1 ++ l2) =
      ((assocFind k l1).rec (assocFind k l2) fun v => some v) := by
  induction l1 with
  | nil => simp [assocFind]
  | cons ab rest ih =>
      rcases ab with ⟨a, b⟩
      by_cases h : a = k <;> simp [assocFind, h, ih]

lemma loadTextureByFile_of_cached {env : LoadEnv} {f : String} {st : PipeState}
    {p : Except String String} (h : assocFind f st.texCache = some p) :
    loadTextureByFile env f st = (p, st) := by
  unfold loadTextureByFile
  rw [h]

lemma loadModelTemplate_of_cached {env : LoadEnv} {f : String} {st : PipeState}
    {p : Except String ModelEntry} (h : assocFind f st.modelCache = some p) :
    loadModelTemplate env f st = (p, st) := by
  unfold loadModelTemplate
  rw [h]

lemma loadTextureByFile_cached_after (env : LoadEnv) (f : String) (st : PipeState) :
    ∃ p, assocFind f (loadTextureByFile env f st).2.texCache = some p := by
  unfold loadTextureByFile
  cases h : assocFind f st.texCache with
  | some p => exact ⟨p, h⟩
  | none =>
      refine ⟨env.texResult f, ?_⟩
      dsimp only
      rw [assocFind_append, h]
      simp [assocFind]

lemma loadModelTemplate_cached_after (env : LoadEnv) (f : String) (st : PipeState) :
    ∃ p, assocFind f (loadModelTemplate env f st).2.modelCache = some p := by
  unfold loadModelTemplate
  cases h : assocFind f st.modelCache with
  | some p => exact ⟨p, h⟩
  | none =>
      refine ⟨modelPromiseResult env (env.gltfResult f), ?_⟩
      dsimp only
      rw [assocFind_append, h]
      simp [assocFind]

lemma handleAsset_caches (env : LoadEnv) (asset : AssetRec) (st : PipeState) :
    (handleAsset env asset st).texCache = (addAsset env asset st).2.texCache ∧
    (handleAsset env asset st).texLoaderCalls
      = (addAsset env asset st).2.texLoaderCalls ∧
    (handleAsset env asset st).modelCache = (addAsset env asset st).2.modelCache ∧
    (handleAsset env asset st).modelLoaderCalls
      = (addAsset env asset st).2.modelLoaderCalls := by
  unfold handleAsset
  rcases h : addAsset env asset st with ⟨res, st1⟩
  cases res <;> simp [addFallbackPlane]

lemma addAsset_image (env : LoadEnv) (asset : AssetRec) (st : PipeState)
    (himg : asset.assetType = some "image") :
    addAsset env asset st = addImageAsset env asset st := by
  unfold addAsset
  rw [himg, if_neg (by decide), if_pos rfl]

lemma addAsset_model (env : LoadEnv) (asset : AssetRec) (st : PipeState)
    (hm : asset.assetType = some "model") :
    addAsset env asset st = addModelAsset env asset st := by
  unfold addAsset
  rw [hm, if_pos rfl]

lemma addImageAsset_texState (env : LoadEnv) (asset : AssetRec) (st : PipeState)
    (f : String) (hfile : truthyString asset.mapped_file = some f) :
    (addImageAsset env asset st).2.texCache
      = (loadTextureByFile env f st).2.texCache ∧
    (addImageAsset env asset st).2.texLoaderCalls
      = (loadTextureByFile env f st).2.texLoaderCalls := by
  unfold addImageAsset
  rw [hfile]
  dsimp only
  rcases hload : loadTextureByFile env f st with ⟨res, st1⟩
  cases res <;> exact ⟨rfl, rfl⟩

lemma addModelAsset_modelState (env : LoadEnv) (asset : AssetRec) (st : PipeState)
    (f : String) (hfile : truthyString asset.mapped_file = some f) :
    (addModelAsset env asset st).2.modelCache
      = (loadModelTemplate env f st).2.modelCache ∧
    (addModelAsset env asset st).2.modelLoaderCalls
      = (loadModelTemplate env f st).2.modelLoaderCalls := by
  unfold addModelAsset
  rw [hfile]
  dsimp only
  rcases hload : loadModelTemplate env f st with ⟨res, st1⟩
  cases res <;> exact ⟨rfl, rfl⟩

lemma foldl_handleAsset_list_loaded (env : LoadEnv) (batch : List AssetRec)
    (st : PipeState) :
    (batch.foldl (fun acc a => handleAsset env a acc) st).totals.loaded
      = st.totals.loaded + batch.length := by
  induction batch generalizing st with
  | nil => simp
  | cons a rest ih =>
      simp only [List.foldl_cons, List.length_cons]
      rw [ih]
      have := (handleAsset_totals env a st).1
      omega

/-- C3: handleAsset catches every per-asset failure (missing file name,
unsupported asset type, or loader error) and converts it into exactly one
fallback placeholder plane recording the error reason (with "load_error" for
a falsy message), bumping the fallback and loaded counters; a success bumps
ok and loaded; addAsset itself never touches the counters; the batch keeps
processing every remaining asset after a failure (the fold over any batch is
total and bumps loaded once per asset); and a failed load is never retried —
processing the same image or model asset a second time performs no further
underlying loader invocation, since the rejected promise stays cached. -/
theorem c3_handleAsset_failure_isolation (env : LoadEnv) (asset : AssetRec)
    (st : PipeState) :
    (∀ e st1, addAsset env asset st = (.error e, st1) →
      handleAsset env asset st =
        { st1 with
            totals := { st1.totals with
                          fallback := st1.totals.fallback + 1,
                          loaded := st1.totals.loaded + 1 },
            world := st1.world ++ [.fallbackPlane (some asset) (orLoadError e)] }) ∧
    (∀ st1, addAsset env asset st = (.ok (), st1) →
      handleAsset env asset st =
        { st1 with
            totals := { st1.totals with
                          ok := st1.totals.ok + 1,
                          loaded := st1.totals.loaded + 1 } }) ∧
    ((addAsset env asset st).2.totals = st.totals) ∧
    (∀ batch : List AssetRec,
      (batch.foldl (fun acc a => handleAsset env a acc) st).totals.loaded
        = st.totals.loaded + batch.length) ∧
    (∀ f, asset.assetType = some "image" → truthyString asset.mapped_file = some f →
      (handleAsset env asset (handleAsset env asset st)).texLoaderCalls
        = (handleAsset env asset st).texLoaderCalls) ∧
    (∀ f, asset.assetType = some "model" → truthyString asset.mapped_file = some f →
      (handleAsset env asset (handleAsset env asset st)).modelLoaderCalls
        = (handleAsset env asset st).modelLoaderCalls) := by
  refine ⟨?_, ?_, addAsset_totals env asset st,
    fun batch => foldl_handleAsset_list_loaded env batch st, ?_, ?_⟩
  · intro e st1 h
    unfold handleAsset
    rw [h]
    dsimp only [addFallbackPlane]
    rw [orLoadError_orLoadError]
  · intro st1 h
    unfold handleAsset
    rw [h]
  · intro f himg hfile
    have h1 := handleAsset_caches env asset st
    have h2 := addImageAsset_texState env asset st f hfile
    obtain ⟨p, hp⟩ := loadTextureByFile_cached_after env f st
    have hcache : (handleAsset env asset st).texCache
        = (loadTextureByFile env f st).2.texCache := by
      rw [h1.1, addAsset_image env asset st himg]
      exact h2.1
    have h1s := handleAsset_caches env asset (handleAsset env asset st)
    have h2s := addImageAsset_texState env asset (handleAsset env asset st) f hfile
    have hload2 : loadTextureByFile env f (handleAsset env asset st)
        = (p, handleAsset env asset st) :=
      loadTextureByFile_of_cached (by rw [hcache]; exact hp)
    calc (handleAsset env asset (handleAsset env asset st)).texLoaderCalls
        = (addAsset env asset (handleAsset env asset st)).2.texLoaderCalls :=
          h1s.2.1
      _ = (addImageAsset env asset (handleAsset env asset st)).2.texLoaderCalls := by
          rw [addAsset_image env asset _ himg]
      _ = (loadTextureByFile env f (handleAsset env asset st)).2.texLoaderCalls :=
          h2s.2
      _ = (handleAsset env asset st).texLoaderCalls := by rw [hload2]
  · intro f hm hfile
    have h1 := handleAsset_caches env asset st
    have h2 := addModelAsset_modelState env asset st f hfile
    obtain ⟨p, hp⟩ := loadModelTemplate_cached_after env f st
    have hcache : (handleAsset env asset st).modelCache
        = (loadModelTemplate env f st).2.modelCache := by
      rw [h1.2.2.1, addAsset_model env asset st hm]
      exact h2.1
    have h1s := handleAsset_caches env asset (handleAsset env asset st)
    have h2s := addModelAsset_modelState env asset (handleAsset env asset st) f hfile
    have hload2 : loadModelTemplate env f (handleAsset env asset st)
        = (p, handleAsset env asset st) :=
      loadModelTemplate_of_cached (by rw [hcache]; exact hp)
    calc (handleAsset env asset (handleAsset env asset st)).modelLoaderCalls
        = (addAsset env asset (handleAsset env asset st)).2.modelLoaderCalls :=
          h1s.2.2.2
      _ = (addModelAsset env asset (handleAsset env asset st)).2.modelLoaderCalls := by
          rw [addAsset_model env asset _ hm]
      _ = (loadModelTemplate env f (handleAsset env asset st)).2.modelLoaderCalls :=
          h2s.2
      _ = (handleAsset env asset st).modelLoaderCalls := by rw [hload2]

/-- Environment in which every load fails with the message "boom". -/
def failEnv : LoadEnv :=
  ⟨fun _ => Except.error "boom", fun _ => Except.error "boom", fun _ => 1⟩

/-- An image asset whose texture load will fail. -/
def imgAsset : AssetRec := ⟨some "image", some "pic.png", none⟩

/-- Witness for C3: a failing texture load yields one fallback plane recording
"boom", fallback and loaded counters at 1, ok at 0, and one loader call. -/
theorem c3_handleAsset_failure_isolation_witness :
    handleAsset failEnv imgAsset (pipeInit []) =
      { totals := ⟨0, 0, 1, 1⟩,
        world := [.fallbackPlane (some imgAsset) "boom"],
        texCache := [("pic.png", Except.error "boom")],
        modelCache := [],
        texLoaderCalls := ["pic.png"],
        modelLoaderCalls := [] } := by
  have h := (c3_handleAsset_failure_isolation failEnv imgAsset (pipeInit [])).1
    "boom"
    { pipeInit [] with
        texCache := [("pic.png", Except.error "boom")],
        texLoaderCalls := ["pic.png"] } rfl
  simpa [pipeInit, initTotals, orLoadError] using h

lemma foldl_otherAssetStep_totals (lst : List (Option AssetRec)) (st : PipeState) :
    ((lst.foldl otherAssetStep st).totals.loaded = st.totals.loaded + lst.length) ∧
    ((lst.foldl otherAssetStep st).totals.ok = st.totals.ok) ∧
    ((lst.foldl otherAssetStep st).totals.fallback
      = st.totals.fallback + lst.length) ∧
    ((lst.foldl otherAssetStep st).totals.total = st.totals.total) := by
  induction lst generalizing st with
  | nil => exact ⟨rfl, rfl, rfl, rfl⟩
  | cons a rest ih =>
      simp only [List.foldl_cons, List.length_cons]
      obtain ⟨i1, i2, i3, i4⟩ := ih (otherAssetStep st a)
      have h1 : (otherAssetStep st a).totals.loaded = st.totals.loaded + 1 := rfl
      have h2 : (otherAssetStep st a).totals.ok = st.totals.ok := rfl
      have h3 : (otherAssetStep st a).totals.fallback = st.totals.fallback + 1 := rfl
      have h4 : (otherAssetStep st a).totals.total = st.totals.total := rfl
      refine ⟨?_, ?_, ?_, ?_⟩ <;> omega

lemma batch_partition (assets : List (Option AssetRec)) :
    (assets.filter isOtherAsset).length + (modelBatch assets).length +
      (imageBatch assets).length = assets.length := by
  unfold modelBatch imageBatch
  induction assets with
  | nil => rfl
  | cons a rest ih =>
      cases a with
      | none =>
          simp only [List.filter_cons, List.filterMap_cons, isOtherAsset,
            pickModel, pickImage, if_true, List.length_cons]
          omega
      | some r =>
          by_cases hm : r.assetType = some "model"
          · have ho : isOtherAsset (some r) = false := by
              simp [isOtherAsset, hm]
            have hpm : pickModel (some r) = some r := by
              simp [pickModel, hm]
            have hpi : pickImage (some r) = none := by
              simp [pickImage, hm]
            simp only [List.filter_cons, List.filterMap_cons, ho, hpm, hpi,
              Bool.false_eq_true, if_false, List.length_cons]
            omega
          · by_cases hi : r.assetType = some "image"
            · have ho : isOtherAsset (some r) = false := by
                simp [isOtherAsset, hi]
              have hpm : pickModel (some r) = none := by
                simp [pickModel, hm]
              have hpi : pickImage (some r) = some r := by
                simp [pickImage, hi]
              simp only [List.filter_cons, List.filterMap_cons, ho, hpm, hpi,
                Bool.false_eq_true, if_false, List.length_cons]
              omega
            · have ho : isOtherAsset (some r) = true := by
                simp [isOtherAsset, hm, hi]
              have hpm : pickModel (some r) = none := by
                simp [pickModel, hm]
              have hpi : pickImage (some r) = none := by
                simp [pickImage, hi]
              simp only [List.filter_cons, List.filterMap_cons, ho, hpm, hpi,
                if_true, List.length_cons]
              omega

lemma log_length_of_allFinished {σ : Type} {c n : Nat} {effect : Nat → σ → σ}
    {init : σ} {s : RunState σ} (inv : RunInv c n effect init s)
    (hfin : AllFinished s) : s.log.length = n := by
  have hidx := idx_eq_of_allFinished inv hfin
  have hz := inflightMS_eq_zero hfin
  have hc := inv.claims_perm
  rw [hz, add_zero, hidx] at hc
  have := congrArg Multiset.card hc
  simpa using this

/-- C9: throughout the inventory loading pipeline — after the synchronous
otherAssets loop and at every reachable suspension point of the model batch
and then the image batch — the status counters satisfy ok + fallback =
loaded, and when both batches complete, loaded equals total, the number of
assets in the manifest. -/
theorem c9_totals_invariant (assets : List (Option AssetRec)) (env : LoadEnv)
    (s : RunState PipeState)
    (hreach : Reach MODEL_CONCURRENCY (modelBatch assets).length
      (batchEffect env (modelBatch assets)) (afterOthers assets) s) :
    TotalsInv s.shared.totals ∧
    (AllFinished s →
      ∀ s2 : RunState PipeState,
        Reach IMAGE_CONCURRENCY (imageBatch assets).length
          (batchEffect env (imageBatch assets)) s.shared s2 →
        TotalsInv s2.shared.totals ∧
        (AllFinished s2 →
          s2.shared.totals.loaded = assets.length ∧
          s2.shared.totals.total = assets.length)) := by
  have hoth := foldl_otherAssetStep_totals (assets.filter isOtherAsset)
    (pipeInit assets)
  have hA_loaded : (afterOthers assets).totals.loaded
      = (assets.filter isOtherAsset).length := by
    unfold afterOthers
    have h0 : (pipeInit assets).totals.loaded = 0 := rfl
    omega
  have hA_inv : TotalsInv (afterOthers assets).totals := by
    unfold TotalsInv
    unfold afterOthers at *
    have h0 : (pipeInit assets).totals.ok = 0 := rfl
    have h1 : (pipeInit assets).totals.fallback = 0 := rfl
    have h2 : (pipeInit assets).totals.loaded = 0 := rfl
    omega
  have hA_total : (afterOthers assets).totals.total = assets.length := by
    unfold afterOthers
    have h0 : (pipeInit assets).totals.total = assets.length := rfl
    omega
  have invM := runInv_of_reach hreach
  have sharedM := invM.shared_eq
  have foldM := foldl_handleAsset_totals env (modelBatch assets) s.log
    (afterOthers assets)
  have conj1 : TotalsInv s.shared.totals := by
    rw [sharedM]
    exact foldM.2.1 hA_inv
  refine ⟨conj1, ?_⟩
  intro hfinM s2 hreach2
  have inv2 := runInv_of_reach hreach2
  have shared2 := inv2.shared_eq
  have fold2 := foldl_handleAsset_totals env (imageBatch assets) s2.log s.shared
  have conj2 : TotalsInv s2.shared.totals := by
    rw [shared2]
    exact fold2.2.1 conj1
  refine ⟨conj2, ?_⟩
  intro hfin2
  have lenM : s.log.length = (modelBatch assets).length :=
    log_length_of_allFinished invM hfinM
  have lenI : s2.log.length = (imageBatch assets).length :=
    log_length_of_allFinished inv2 hfin2
  have loadedM : s.shared.totals.loaded
      = (afterOthers assets).totals.loaded + s.log.length := by
    rw [sharedM]
    exact foldM.1
  have loadedI : s2.shared.totals.loaded
      = s.shared.totals.loaded + s2.log.length := by
    rw [shared2]
    exact fold2.1
  have totalM : s.shared.totals.total = (afterOthers assets).totals.total := by
    rw [sharedM]
    exact foldM.2.2
  have totalI : s2.shared.totals.total = s.shared.totals.total := by
    rw [shared2]
    exact fold2.2.2
  have part := batch_partition assets
  constructor
  · omega
  · omega

/-- Witness for C9: the empty manifest runs both batches to completion and
ends with loaded equal to the manifest size 0. -/
theorem c9_totals_invariant_witness :
    (afterOthers ([] : List (Option AssetRec))).totals.loaded
      = ([] : List (Option AssetRec)).length := by
  have e0 : runInit MODEL_CONCURRENCY
      (modelBatch ([] : List (Option AssetRec))).length
      (afterOthers ([] : List (Option AssetRec)))
      = (⟨0, 0 + {RunnerPhase.ready}, afterOthers [], []⟩ : RunState PipeState) := by
    simp [runInit, safeConcurrency, MODEL_CONCURRENCY, modelBatch]
  have stepM : RunStep (modelBatch ([] : List (Option AssetRec))).length
      (batchEffect failEnv (modelBatch []))
      (⟨0, 0 + {RunnerPhase.ready}, afterOthers [], []⟩ : RunState PipeState)
      ⟨0, 0 + {RunnerPhase.finished}, afterOthers [], []⟩ :=
    RunStep.exit 0 0 (afterOthers []) [] (by decide)
  have hreachM : Reach MODEL_CONCURRENCY
      (modelBatch ([] : List (Option AssetRec))).length
      (batchEffect failEnv (modelBatch [])) (afterOthers [])
      ⟨0, 0 + {RunnerPhase.finished}, afterOthers [], []⟩ := by
    unfold Reach
    rw [e0]
    exact Relation.ReflTransGen.single stepM
  have hfinM : AllFinished
      (⟨0, 0 + {RunnerPhase.finished}, afterOthers [], []⟩ : RunState PipeState) := by
    intro ph hph
    simp only [zero_add, Multiset.mem_singleton] at hph
    exact hph
  have e1 : runInit IMAGE_CONCURRENCY
      (imageBatch ([] : List (Option AssetRec))).length
      (afterOthers ([] : List (Option AssetRec)))
      = (⟨0, 0 + {RunnerPhase.ready}, afterOthers [], []⟩ : RunState PipeState) := by
    simp [runInit, safeConcurrency, IMAGE_CONCURRENCY, imageBatch]
  have stepI : RunStep (imageBatch ([] : List (Option AssetRec))).length
      (batchEffect failEnv (imageBatch []))
      (⟨0, 0 + {RunnerPhase.ready}, afterOthers [], []⟩ : RunState PipeState)
      ⟨0, 0 + {RunnerPhase.finished}, afterOthers [], []⟩ :=
    RunStep.exit 0 0 (afterOthers []) [] (by decide)
  have hreachI : Reach IMAGE_CONCURRENCY
      (imageBatch ([] : List (Option AssetRec))).length
      (batchEffect failEnv (imageBatch [])) (afterOthers [])
      ⟨0, 0 + {RunnerPhase.finished}, afterOthers [], []⟩ := by
    unfold Reach
    rw [e1]
    exact Relation.ReflTransGen.single stepI
  have hfinI : AllFinished
      (⟨0, 0 + {RunnerPhase.finished}, afterOthers [], []⟩ : RunState PipeState) := by
    intro ph hph
    simp only [zero_add, Multiset.mem_singleton] at hph
    exact hph
  exact (((c9_totals_invariant [] failEnv
      ⟨0, 0 + {RunnerPhase.finished}, afterOthers [], []⟩ hreachM).2 hfinM
      ⟨0, 0 + {RunnerPhase.finished}, afterOthers [], []⟩ hreachI).2 hfinI).1

/-! ## Sculpture viewer (src/sculptures/main.js)

The material cache maps a layer id (possibly absent on malformed layers) to
the THREE.MeshBasicMaterial created for it; its texture is identified by the
id whose URL it was loaded from.  Texture completion callbacks are tracked in
textureReadyCallbacks and invoked callbacks are logged.  Planes added to the
scene group are recorded with their material, transform and back-face flag. -/

/-- A material created by the sculpture viewer; `map` identifies the texture
by the layer id it was created for. -/
structure Mat where
  map : Option String
deriving DecidableEq

/-- A plain {x, y, z} vector of a sculpture layer record. -/
structure EVec where
  x : ℚ
  y : ℚ
  z : ℚ
deriving DecidableEq

/-- A layer record of a sculpture JSON document. -/
structure Layer where
  id : Option String
  role : Option String
  position : Option EVec
  rotation : Option EVec
  scale : Option EVec
deriving DecidableEq

/-- A mesh added to the sculpture scene group: the shared material, the
layer transform, and whether this is the mirrored back plane (rotated by π
around y with the front's transform copied over). -/
structure PlaneMesh where
  material : Mat
  position : EVec
  rotation : EVec
  mirroredBack : Bool
  scale : EVec
deriving DecidableEq

/-- Mutable state of the sculpture viewer's loading machinery. -/
structure SculptState where
  matCache : List (Option String × Mat)
  readyCallbacks : List (Option String × List Nat)
  pendingTextures : Nat
  textureWarningShown : Bool
  firedCallbacks : List (Nat × Option String)
  group : List PlaneMesh

/-- Replaces the value stored at a key (mutating the pushed-to array of
textureReadyCallbacks). -/
def assocSet {α β : Type} [DecidableEq α] (k : α) (v : β) :
    List (α × β) → List (α × β)
  | [] => []
  | (a, b) :: rest => if a = k then (a, v) :: rest else (a, b) :: assocSet k v rest

/-- Removes the entry at a key (Map.delete). -/
def assocErase {α β : Type} [DecidableEq α] (k : α) :
    List (α × β) → List (α × β)
  | [] => []
  | (a, b) :: rest => if a = k then rest else (a, b) :: assocErase k rest

/-- getMaterial from src/sculptures/main.js lines 359-422.  On a cache hit,
a supplied callback is appended to the pending callback list when the texture
is still loading, and invoked immediately on the cached texture otherwise;
on a miss the callback list is registered, pendingTextures is bumped, the
texture load is started and the new material is cached. -/
def getMaterial (id : Option String) (onTextureReady : Option Nat)
    (st : SculptState) : Mat × SculptState :=
  match assocFind id st.matCache with
  | some cached =>
      match onTextureReady with
      | some cb =>
          match assocFind id st.readyCallbacks with
          | some callbacks =>
              (cached, { st with
                readyCallbacks := assocSet id (callbacks ++ [cb]) st.readyCallbacks })
          | none =>
              (cached, { st with
                firedCallbacks := st.firedCallbacks ++ [(cb, cached.map)] })
      | none => (cached, st)
  | none =>
      let readyCallbacks := match onTextureReady with
        | some cb => [cb]
        | none => []
      let st1 := { st with
        readyCallbacks := st.readyCallbacks ++ [(id, readyCallbacks)],
        pendingTextures := st.pendingTextures + 1 }
      let mat : Mat := ⟨id⟩
      (mat, { st1 with matCache := st1.matCache ++ [(id, mat)] })

/-- The onLoad handler of the texture load started by getMaterial (lines
382-397): decrement pendingTextures (floored at 0), invoke and drop the
pending callbacks for the id. -/
def textureLoadSuccess (id : Option String) (st : SculptState) : SculptState :=
  let st1 := { st with pendingTextures := st.pendingTextures - 1 }
  let callbacks := (assocFind id st1.readyCallbacks).getD []
  let st2 := { st1 with
    firedCallbacks := st1.firedCallbacks ++ callbacks.map (fun cb => (cb, id)) }
  { st2 with readyCallbacks := assocErase id st2.readyCallbacks }

/-- The onError handler of the texture load (lines 399-410): decrement
pendingTextures, set the warning flag, drop the pending callbacks — the
material cache entry is left in place. -/
def textureLoadError (id : Option String) (st : SculptState) : SculptState :=
  let st1 := { st with pendingTextures := st.pendingTextures - 1,
                       textureWarningShown := true }
  { st1 with readyCallbacks := assocErase id st1.readyCallbacks }

lemma loadTextureByFile_result_cached (env : LoadEnv) (f : String)
    (st : PipeState) :
    assocFind f (loadTextureByFile env f st).2.texCache
      = some (loadTextureByFile env f st).1 := by
  unfold loadTextureByFile
  cases h : assocFind f st.texCache with
  | some p => exact h
  | none =>
      dsimp only
      rw [assocFind_append, h]
      simp [assocFind]

lemma loadModelTemplate_result_cached (env : LoadEnv) (f : String)
    (st : PipeState) :
    assocFind f (loadModelTemplate env f st).2.modelCache
      = some (loadModelTemplate env f st).1 := by
  unfold loadModelTemplate
  cases h : assocFind f st.modelCache with
  | some p => exact h
  | none =>
      dsimp only
      rw [assocFind_append, h]
      simp [assocFind]

lemma getMaterial_of_cached {id : Option String} {cb : Option Nat}
    {st : SculptState} {m : Mat} (h : assocFind id st.matCache = some m) :
    (getMaterial id cb st).1 = m := by
  unfold getMaterial
  rw [h]
  cases cb with
  | none => rfl
  | some c =>
      dsimp only
      cases assocFind id st.readyCallbacks <;> rfl

lemma getMaterial_matCache_cases (id : Option String) (cb : Option Nat)
    (st : SculptState) :
    (getMaterial id cb st).2.matCache = st.matCache ∨
    (getMaterial id cb st).2.matCache = st.matCache ++ [(id, Mat.mk id)] := by
  unfold getMaterial
  cases h : assocFind id st.matCache with
  | some m =>
      left
      cases cb with
      | none => rfl
      | some c =>
          dsimp only
          cases assocFind id st.readyCallbacks <;> rfl
  | none => right; rfl

lemma getMaterial_result_cached (id : Option String) (cb : Option Nat)
    (st : SculptState) :
    assocFind id (getMaterial id cb st).2.matCache
      = some (getMaterial id cb st).1 := by
  unfold getMaterial
  cases h : assocFind id st.matCache with
  | some m =>
      cases cb with
      | none => exact h
      | some c =>
          dsimp only
          cases assocFind id st.readyCallbacks <;> exact h
  | none =>
      dsimp only
      rw [assocFind_append, h]
      simp [assocFind]

/-- C7: the cached loaders are stable: a repeated loadTextureByFile or
loadModelTemplate for the same file name returns the identical cached result
(whatever the promise's outcome, success or failure) and leaves the state
unchanged; each call only ever appends to its cache; the sculpture viewer's
getMaterial returns the identical cached material on a repeated call for the
same layer id, only ever appends to the material cache, and neither texture
completion handler — in particular the error handler — removes material
cache entries, so the material returned after a failed texture load is still
the original cached one. -/
theorem c7_caches_stable (env : LoadEnv) (f : String) (st : PipeState)
    (id : Option String) (cb cb2 : Option Nat) (sst : SculptState) :
    (loadTextureByFile env f (loadTextureByFile env f st).2).1
      = (loadTextureByFile env f st).1 ∧
    (loadTextureByFile env f (loadTextureByFile env f st).2).2
      = (loadTextureByFile env f st).2 ∧
    (∃ ext, (loadTextureByFile env f st).2.texCache = st.texCache ++ ext) ∧
    (loadModelTemplate env f (loadModelTemplate env f st).2).1
      = (loadModelTemplate env f st).1 ∧
    (loadModelTemplate env f (loadModelTemplate env f st).2).2
      = (loadModelTemplate env f st).2 ∧
    (∃ ext, (loadModelTemplate env f st).2.modelCache = st.modelCache ++ ext) ∧
    (getMaterial id cb2 (getMaterial id cb sst).2).1
      = (getMaterial id cb sst).1 ∧
    (∃ ext, (getMaterial id cb sst).2.matCache = sst.matCache ++ ext) ∧
    (textureLoadSuccess id sst).matCache = sst.matCache ∧
    (textureLoadError id sst).matCache = sst.matCache ∧
    (getMaterial id cb2 (textureLoadError id (getMaterial id cb sst).2)).1
      = (getMaterial id cb sst).1 := by
  have htex := @loadTextureByFile_of_cached env f
    ((loadTextureByFile env f st).2) ((loadTextureByFile env f st).1)
    (loadTextureByFile_result_cached env f st)
  have hmod := @loadModelTemplate_of_cached env f
    ((loadModelTemplate env f st).2) ((loadModelTemplate env f st).1)
    (loadModelTemplate_result_cached env f st)
  refine ⟨by rw [htex], by rw [htex], ?_, by rw [hmod], by rw [hmod], ?_,
    getMaterial_of_cached (getMaterial_result_cached id cb sst), ?_, rfl, rfl, ?_⟩
  · unfold loadTextureByFile
    cases h : assocFind f st.texCache with
    | some p => exact ⟨[], by simp⟩
    | none => exact ⟨[(f, env.texResult f)], rfl⟩
  · unfold loadModelTemplate
    cases h : assocFind f st.modelCache with
    | some p => exact ⟨[], by simp⟩
    | none => exact ⟨[(f, modelPromiseResult env (env.gltfResult f))], rfl⟩
  · rcases getMaterial_matCache_cases id cb sst with h | h
    · exact ⟨[], by rw [h]; simp⟩
    · exact ⟨[(id, Mat.mk id)], h⟩
  · refine getMaterial_of_cached ?_
    show assocFind id (getMaterial id cb sst).2.matCache = _
    exact getMaterial_result_cached id cb sst

/-- makePlane from src/sculptures/main.js lines 424-461: a layer whose role
is "sample" returns early and contributes nothing; every other layer fetches
(or creates) the shared material for its id — registering the resize
callback, denoted 0 — and adds a front plane and a mirrored back plane with
the layer's transform (defaulting position to 0, rotation to 0, scale to 1)
to the scene group. -/
def makePlane (layer : Layer) (st : SculptState) : SculptState :=
  if layer.role = some "sample" then st
  else
    let mp := getMaterial layer.id (some 0) st
    let p := layer.position.getD ⟨0, 0, 0⟩
    let r := layer.rotation.getD ⟨0, 0, 0⟩
    let sc := layer.scale.getD ⟨1, 1, 1⟩
    { mp.2 with group := mp.2.group ++
        [⟨mp.1, p, r, false, sc⟩, ⟨mp.1, p, r, true, sc⟩] }

/-- The per-layer loop `for (const layer of layers) makePlane(layer)` on
line 463. -/
def buildPlanes (layers : List Layer) (st : SculptState) : SculptState :=
  layers.foldl (fun acc layer => makePlane layer acc) st

/-- A summary card produced by addCard (lines 151-173, template present). -/
structure Card where
  layerId : String
deriving DecidableEq

/-- addCard, keyed by String(layer.id ?? ""). -/
def addCard (id : String) : Card := ⟨id⟩

/-- renderSummary from lines 175-189: every layer — sample layers included —
gets one card. -/
def renderSummary (layers : List Layer) : List Card :=
  layers.map fun layer => addCard (layer.id.getD "")

/-- The layer statistic written by updateStats (line 92): the number of
layers, sample layers included. -/
def statLayers (layers : List Layer) : Nat := layers.length

/-- The sculpture viewer's initial loading state. -/
def sculptInit : SculptState := ⟨[], [], 0, false, [], []⟩

/-- The front plane makePlane builds for a non-sample layer. -/
def frontPlaneOf (layer : Layer) : PlaneMesh :=
  ⟨⟨layer.id⟩, layer.position.getD ⟨0, 0, 0⟩, layer.rotation.getD ⟨0, 0, 0⟩,
    false, layer.scale.getD ⟨1, 1, 1⟩⟩

/-- The mirrored back plane makePlane builds for a non-sample layer. -/
def backPlaneOf (layer : Layer) : PlaneMesh :=
  ⟨⟨layer.id⟩, layer.position.getD ⟨0, 0, 0⟩, layer.rotation.getD ⟨0, 0, 0⟩,
    true, layer.scale.getD ⟨1, 1, 1⟩⟩

/-- The meshes the layer list should contribute to the scene group. -/
def expectedPlanes (layers : List Layer) : List PlaneMesh :=
  layers.flatMap fun layer =>
    if layer.role = some "sample" then []
    else [frontPlaneOf layer, backPlaneOf layer]

/-- Well-formedness of the material cache: each entry is the material built
for its key. -/
def MatCacheWF (l : List (Option String × Mat)) : Prop :=
  ∀ e ∈ l, e.2 = Mat.mk e.1

lemma assocFind_mem {α β : Type} [DecidableEq α] {k : α} {l : List (α × β)}
    {v : β} (h : assocFind k l = some v) : (k, v) ∈ l := by
  induction l with
  | nil => simp [assocFind] at h
  | cons ab rest ih =>
      rcases ab with ⟨a, b⟩
      by_cases ha : a = k
      · subst ha
        simp [assocFind] at h
        subst h
        exact List.mem_cons_self _ _
      · simp [assocFind, ha] at h
        exact List.mem_cons_of_mem _ (ih h)

lemma getMaterial_result_of_WF {id : Option String} {cb : Option Nat}
    {st : SculptState} (h : MatCacheWF st.matCache) :
    (getMaterial id cb st).1 = Mat.mk id := by
  cases hc : assocFind id st.matCache with
  | some m =>
      rw [getMaterial_of_cached hc]
      have hm := h (id, m) (assocFind_mem hc)
      exact hm
  | none =>
      unfold getMaterial
      rw [hc]

lemma getMaterial_WF_preserved {id : Option String} {cb : Option Nat}
    {st : SculptState} (h : MatCacheWF st.matCache) :
    MatCacheWF (getMaterial id cb st).2.matCache := by
  rcases getMaterial_matCache_cases id cb st with hc | hc
  · rw [hc]; exact h
  · rw [hc]
    intro e he
    rcases List.mem_append.mp he with he | he
    · exact h e he
    · simp at he
      subst he
      rfl

lemma getMaterial_group (id : Option String) (cb : Option Nat)
    (st : SculptState) : (getMaterial id cb st).2.group = st.group := by
  unfold getMaterial
  cases assocFind id st.matCache with
  | some m =>
      cases cb with
      | none => rfl
      | some c =>
          dsimp only
          cases assocFind id st.readyCallbacks <;> rfl
  | none => rfl

lemma buildPlanes_group (layers : List Layer) (st : SculptState)
    (h : MatCacheWF st.matCache) :
    (buildPlanes layers st).group = st.group ++ expectedPlanes layers ∧
    MatCacheWF (buildPlanes layers st).matCache := by
  induction layers generalizing st with
  | nil => exact ⟨by simp [buildPlanes, expectedPlanes], h⟩
  | cons layer rest ih =>
      have hstep : buildPlanes (layer :: rest) st
          = buildPlanes rest (makePlane layer st) := rfl
      have hexp : expectedPlanes (layer :: rest)
          = (if layer.role = some "sample" then ([] : List PlaneMesh)
             else [frontPlaneOf layer, backPlaneOf layer]) ++ expectedPlanes rest := by
        unfold expectedPlanes
        rw [List.flatMap_cons]
      by_cases hrole : layer.role = some "sample"
      · have hmk : makePlane layer st = st := by
          unfold makePlane
          rw [if_pos hrole]
        obtain ⟨g, w⟩ := ih st h
        rw [hstep, hmk]
        refine ⟨?_, w⟩
        rw [g, hexp, if_pos hrole]
        simp
      · have hw2 : MatCacheWF (makePlane layer st).matCache := by
          unfold makePlane
          rw [if_neg hrole]
          dsimp only
          exact getMaterial_WF_preserved h
        have hg2 : (makePlane layer st).group
            = st.group ++ [frontPlaneOf layer, backPlaneOf layer] := by
          unfold makePlane
          rw [if_neg hrole]
          dsimp only
          rw [getMaterial_group, getMaterial_result_of_WF h]
          rfl
        obtain ⟨g, w⟩ := ih (makePlane layer st) hw2
        rw [hstep]
        refine ⟨?_, w⟩
        rw [g, hg2, hexp, if_neg hrole, List.append_assoc]

/-- C10: in the sculpture viewer, a layer whose role is "sample" contributes
no mesh to the scene group (makePlane returns early and leaves the state
untouched), every other layer contributes exactly a front plane and a
mirrored back plane, so starting from the fresh viewer state the group holds
exactly those two meshes per non-sample layer; yet renderSummary builds one
card for every layer — sample layers included — and the layer statistic
counts every layer. -/
theorem c10_sample_layers_excluded (layers : List Layer) :
    (buildPlanes layers sculptInit).group = expectedPlanes layers ∧
    (∀ layer st, layer.role = some "sample" → makePlane layer st = st) ∧
    (∀ layer, ¬layer.role = some "sample" → ∀ st : SculptState,
      MatCacheWF st.matCache →
      (makePlane layer st).group
        = st.group ++ [frontPlaneOf layer, backPlaneOf layer]) ∧
    renderSummary layers = layers.map (fun layer => addCard (layer.id.getD "")) ∧
    (renderSummary layers).length = layers.length ∧
    statLayers layers = layers.length := by
  have hwf : MatCacheWF sculptInit.matCache := by
    intro e he
    simp [sculptInit] at he
  obtain ⟨g, _⟩ := buildPlanes_group layers sculptInit hwf
  refine ⟨?_, ?_, ?_, rfl, by simp [renderSummary], rfl⟩
  · rw [g]
    rfl
  · intro layer st hrole
    unfold makePlane
    rw [if_pos hrole]
  · intro layer hrole st hw
    unfold makePlane
    rw [if_neg hrole]
    dsimp only
    rw [getMaterial_group, getMaterial_result_of_WF hw]
    rfl

/-- Witness for C10: a concrete sample layer leaves the fresh viewer state
untouched. -/
theorem c10_sample_layers_excluded_witness :
    makePlane ⟨some "a", some "sample", none, none, none⟩ sculptInit
      = sculptInit :=
  (c10_sample_layers_excluded []).2.1 ⟨some "a", some "sample", none, none, none⟩
    sculptInit rfl
